import Mathlib

/-!
Shallow embedding of the gateway routing engine and its local-mode
infrastructure fallbacks, translated from:

  * `src/services/gateway/server.js` — round-robin selection, retrying proxy,
    stats endpoint;
  * `src/shared/serviceDiscovery.js` — fallback (in-process) registry:
    register / discover / deregister;
  * the message-queue manager (`MessageQueueManager`) — fallback job
    processing and fire-and-forget event publication.

JavaScript `Map`s keyed by strings are modelled as association lists (to keep
insertion order, which round robin and stats iteration depend on); machine
integers do not overflow in any of the modelled code paths, so counters are
`Nat`. Fallible JS code (thrown exceptions) is modelled with `Except`.
-/

namespace LoadBalancer

/-- A registered service instance, as built by `fallbackRegister` in
`src/shared/serviceDiscovery.js`: `{id, address, port, healthy, lastCheck}`.
Timestamps are abstract `Nat` ticks. -/
structure ServiceInstance where
  id : String
  address : String
  port : Nat
  healthy : Bool
  lastCheck : Nat
deriving Repr, DecidableEq

instance : Inhabited ServiceInstance := ⟨⟨"", "", 0, false, 0⟩⟩

/-- The fallback in-memory registry: `this.services = new Map()` mapping a
logical service name to its ordered list of instances. Association list in
insertion order. -/
abbrev Registry := List (String × List ServiceInstance)

/-- `this.services.get(name)` -/
def registryLookup (reg : Registry) (name : String) : Option (List ServiceInstance) :=
  (List.find? (fun p => p.1 == name) reg).map Prod.snd

/-- `this.services.set(name, l)`: replaces the entry in place if the key
exists (a JS `Map` keeps the key's insertion position), otherwise appends. -/
def registrySet (reg : Registry) (name : String) (l : List ServiceInstance) : Registry :=
  if reg.any (fun p => p.1 == name) then
    reg.map (fun p => if p.1 == name then (name, l) else p)
  else reg ++ [(name, l)]

/-- `instances[existingIndex] = serviceInstance`: replace the first (and, ids
being unique, only) instance carrying this id, keeping its position. -/
def replaceById : List ServiceInstance → ServiceInstance → List ServiceInstance
  | [], _ => []
  | i :: rest, inst => if i.id == inst.id then inst :: rest else i :: replaceById rest inst

/-- `fallbackRegister(name, id, port)` (serviceDiscovery.js lines 60–83): make
sure the service has an entry, build a fresh instance record with
`healthy: true` and `lastCheck: new Date()`, then replace in place when the id
already exists, else push at the end. `now` stands for `new Date()`. -/
def fallbackRegister (reg : Registry) (name id : String) (port now : Nat) : Registry :=
  let instances := (registryLookup reg name).getD []
  let serviceInstance : ServiceInstance := ⟨id, "localhost", port, true, now⟩
  let newInstances :=
    if instances.any (fun i => i.id == id) then replaceById instances serviceInstance
    else instances ++ [serviceInstance]
  registrySet reg name newInstances

/-- `fallbackDiscover(serviceName)` (lines 108–111): the registered list (or
`[]`) filtered on `healthy == true`. -/
def fallbackDiscover (reg : Registry) (name : String) : List ServiceInstance :=
  ((registryLookup reg name).getD []).filter (fun i => i.healthy)

/-- `instances.splice(index, 1)` at the first instance with this id. -/
def removeById : List ServiceInstance → String → List ServiceInstance
  | [], _ => []
  | i :: rest, id => if i.id == id then rest else i :: removeById rest id

/-- The fallback-registry part of `deregisterService(id)` (lines 123–131):
scan the services in insertion order, remove the instance from the first list
that contains the id, and `break`. -/
def deregisterService : Registry → String → Registry
  | [], _ => []
  | (n, l) :: rest, id =>
    if l.any (fun i => i.id == id) then (n, removeById l id) :: rest
    else (n, l) :: deregisterService rest id

/-! ## Gateway state (server.js lines 25–32) -/

/-- `${service.address}:${service.port}`, the key of the `requestCounts` map. -/
def instKey (i : ServiceInstance) : String := i.address ++ ":" ++ toString i.port

/-- `requestCounts.get(k) || 0` -/
def rcGet (m : List (String × Nat)) (k : String) : Nat :=
  ((List.find? (fun p => p.1 == k) m).map Prod.snd).getD 0

/-- `requestCounts.set(k, v)` -/
def rcSet (m : List (String × Nat)) (k : String) (v : Nat) : List (String × Nat) :=
  if m.any (fun p => p.1 == k) then m.map (fun p => if p.1 == k then (k, v) else p)
  else m ++ [(k, v)]

/-- The gateway's mutable routing state: the per-service round-robin cursor
object `currentIndex` and the per-instance `requestCounts` map. The source
initialises `currentIndex` with `{user: 0, product: 0, order: 0}` and the
proxy is only ever invoked for those three names, so the cursor table is
modelled as a total function that is `0` everywhere initially. -/
structure GwState where
  currentIndex : String → Nat
  requestCounts : List (String × Nat)

/-- State at process start: all cursors `0`, `requestCounts = new Map()`. -/
def initialGw : GwState := ⟨fun _ => 0, []⟩

/-- The object `selectFromDiscoveredServices` returns:
`{url, healthy, requests}`. -/
structure SelectedService where
  url : String
  healthy : Bool
  requests : Nat
deriving Repr, DecidableEq

/-- `selectFromDiscoveredServices(serviceName, services)` (server.js lines
70–88): throw when the list is empty; otherwise pick the instance at
`currentIndex[serviceName] % services.length`, advance the cursor by one
modulo the length, and bump the chosen instance's entry in `requestCounts`
— note the counter is incremented here, at selection time, before any
forwarding happens. -/
def selectFromDiscoveredServices (st : GwState) (name : String)
    (services : List ServiceInstance) :
    Except String (SelectedService × GwState) :=
  if h : services = [] then
    .error ("No healthy " ++ name ++ " services available")
  else
    let idx := st.currentIndex name % services.length
    let svc := services.get ⟨idx, Nat.mod_lt _ (List.length_pos.mpr h)⟩
    let key := instKey svc
    let newCount := rcGet st.requestCounts key + 1
    let st' : GwState :=
      { currentIndex := fun n =>
          if n == name then (st.currentIndex name + 1) % services.length
          else st.currentIndex n
        requestCounts := rcSet st.requestCounts key newCount }
    .ok (⟨"http://" ++ key, svc.healthy, newCount⟩, st')

/-- `getNextService(serviceName)` (server.js lines 48–68) given the list that
`serviceDiscovery.discoverServices` resolved to. When discovery returns a
non-empty list, select from it. Otherwise the code falls back to
`serviceRegistry[serviceName]`: `serviceRegistry` is a `new Map()` read with
bracket (property) access, and no code ever assigns a property on it, so the
read yields `undefined` and the following `services.filter(...)` throws a
`TypeError` — modelled as the corresponding error value. -/
def getNextService (st : GwState) (name : String)
    (discovered : List ServiceInstance) :
    Except String (SelectedService × GwState) :=
  if discovered.length > 0 then
    selectFromDiscoveredServices st name discovered
  else
    .error "Cannot read properties of undefined (reading 'filter')"

/-! ## Forwarding (axios) and the audit publication -/

/-- What the network does for one forwarding attempt: either a
connectivity-class failure or an HTTP response from the instance. -/
inductive ForwardOutcome where
  | netError (msg : String)
  | response (status : Nat) (body : String)
deriving Repr, DecidableEq

/-- `await axios(config)`: axios's default `validateStatus` resolves the
promise only for `200 <= status < 300`; any other status makes the promise
reject with `Request failed with status code N`, and connection errors and
timeouts reject with their own message. -/
def axiosRequest (o : ForwardOutcome) : Except String (Nat × String) :=
  match o with
  | .netError m => .error m
  | .response s b =>
    if 200 ≤ s ∧ s < 300 then .ok (s, b)
    else .error ("Request failed with status code " ++ toString s)

/-- Result of `publishEvent` as observed by its caller. -/
inductive PublishOutcome where
  | published
  | swallowed (msg : String)
deriving Repr, DecidableEq

/-- `publishEvent(eventName, data)` (message-queue manager): `queue.add` is
awaited inside `try { ... } catch (error) { logger.error(...) }`, so a failing
add is logged and swallowed — the function returns normally either way.
`addResult` is the outcome of the underlying `add`. -/
def publishEvent (addResult : Except String Unit) : PublishOutcome :=
  match addResult with
  | .ok _ => .published
  | .error e => .swallowed e

/-- The environment one `proxyRequest` call runs in: per attempt `k`,
the list `serviceDiscovery.discoverServices` resolves to, the outcome of
forwarding to the selected instance, and the outcome of the audit queue's
`add` for the `request.proxied` event. -/
structure RouteEnv where
  discover : Nat → List ServiceInstance
  forward : Nat → SelectedService → ForwardOutcome
  publishAdd : Nat → Except String Unit

/-- The message of the terminal 500 body:
`Service ${serviceName} unavailable after ${maxAttempts} attempts`. -/
def unavailMsg (name : String) : String :=
  "Service " ++ name ++ " unavailable after 3 attempts"

/-- What `proxyRequest` sends: either the proxied response passed through
(`res.status(response.status).json(response.data)`), or the terminal JSON
error `{error, message, requestId}` with HTTP status 500. `priorFailures` is
the number of failed attempts before the successful one; `attempts` is the
value of the attempt counter when the error response is sent. Both carry the
gateway state after the call. -/
inductive RouteResult where
  | success (status : Nat) (body : String) (target : String)
      (priorFailures : Nat) (st : GwState)
  | failure (status : Nat) (error message requestId : String)
      (attempts : Nat) (st : GwState)

def RouteResult.statusOf : RouteResult → Nat
  | .success s _ _ _ _ => s
  | .failure s _ _ _ _ _ => s

def RouteResult.bodyOf : RouteResult → String
  | .success _ b _ _ _ => b
  | .failure _ _ _ _ _ _ => ""

def RouteResult.targetOf : RouteResult → String
  | .success _ _ t _ _ => t
  | .failure _ _ _ _ _ _ => ""

def RouteResult.attemptsOf : RouteResult → Nat
  | .success _ _ _ p _ => p
  | .failure _ _ _ _ a _ => a

def RouteResult.errorOf : RouteResult → String
  | .success _ _ _ _ _ => ""
  | .failure _ e _ _ _ _ => e

def RouteResult.messageOf : RouteResult → String
  | .success _ _ _ _ _ => ""
  | .failure _ _ m _ _ _ => m

def RouteResult.requestIdOf : RouteResult → String
  | .success _ _ _ _ _ => ""
  | .failure _ _ _ r _ _ => r

def RouteResult.isSuccess : RouteResult → Bool
  | .success _ _ _ _ _ => true
  | .failure _ _ _ _ _ _ => false

def RouteResult.stateOf : RouteResult → GwState
  | .success _ _ _ _ st => st
  | .failure _ _ _ _ _ st => st

/-- The body of `proxyRequest`'s `while (attempts < maxAttempts)` loop
(server.js lines 106–175), unrolled on fuel. One iteration: resolve and
select via `getNextService` (which already mutates cursor and counts);
`service.requests++` then increments a field of the transient object returned
by the selector, not the `requestCounts` map, so it has no effect on the
state; publish the audit event (never throws); forward with axios. Any throw
is caught: the attempt counter is incremented, and when it reaches
`maxAttempts = 3` the 500 JSON error is sent, otherwise the loop retries.
State mutated by a failed attempt's selection is kept. `none` stands for the
loop exiting by its condition, which cannot happen from `attempts = 0` with
fuel 3. -/
def proxyGo (env : RouteEnv) (name requestId : String) :
    Nat → Nat → GwState → Option RouteResult
  | 0, _, _ => none
  | fuel + 1, attempts, st =>
    match getNextService st name (env.discover attempts) with
    | .error e =>
      if attempts + 1 = 3 then
        some (.failure 500 (unavailMsg name) e requestId (attempts + 1) st)
      else proxyGo env name requestId fuel (attempts + 1) st
    | .ok (svc, st') =>
      let _audit := publishEvent (env.publishAdd attempts)
      match axiosRequest (env.forward attempts svc) with
      | .ok (s, b) => some (.success s b svc.url attempts st')
      | .error e =>
        if attempts + 1 = 3 then
          some (.failure 500 (unavailMsg name) e requestId (attempts + 1) st')
        else proxyGo env name requestId fuel (attempts + 1) st'

/-- `proxyRequest(req, res, serviceName)`: the loop starting from
`attempts = 0` with `maxAttempts = 3`. -/
def proxyRequest (env : RouteEnv) (name requestId : String) (st : GwState) :
    Option RouteResult :=
  proxyGo env name requestId 3 0 st

/-! ## Queue facade, local mode (message-queue manager) -/

/-- `job.status` values of the fallback queue's jobs. -/
inductive JobStatus where
  | waiting
  | processing
  | completed
  | failed
deriving Repr, DecidableEq

/-- A fallback-queue job: the fields `processFallbackJob` reads and writes.
`add` creates it with `status: 'waiting'` and no `error`. -/
structure Job where
  name : String
  status : JobStatus
  error : Option String
deriving Repr, DecidableEq

/-- What one registered processor does when invoked. -/
inductive HandlerResult where
  | ok
  | throws (msg : String)
deriving Repr, DecidableEq

/-- One iteration of `processFallbackJob`'s `for (const processor of
queue.processors)` loop: set `status = 'processing'`, await the processor,
then `status = 'completed'`; on a throw, `status = 'failed'` and
`error = error.message`. -/
def runProcessor (job : Job) (r : HandlerResult) : Job :=
  match r with
  | .ok => { job with status := .completed }
  | .throws m => { job with status := .failed, error := some m }

/-- `processFallbackJob(queueName, job)` (message-queue manager lines
264–280) with the list of processor outcomes: folds the per-processor
iteration over the job. Each iteration overwrites the status set by the
previous one. -/
def processFallbackJob (job : Job) (processors : List HandlerResult) : Job :=
  processors.foldl runProcessor job

/-- The sequence of `job.status` values a job passes through while
`processFallbackJob` runs, starting from its current status: every processor
contributes `processing` followed by its own terminal write. -/
def statusTrace (job : Job) (processors : List HandlerResult) : List JobStatus :=
  job.status :: processors.flatMap (fun r =>
    [JobStatus.processing, (runProcessor job r).status])

/-! ## Stats endpoint (server.js lines 196–234) -/

/-- One entry of the per-service arrays the `Promise.all` continuation maps
discovery results to: `{url, healthy, requests}`. -/
structure InstanceStat where
  url : String
  healthy : Bool
  requests : Nat
deriving Repr, DecidableEq

/-- What the `.then` continuation (lines 204–222) computes for one service:
the live discovery result mapped to `{url, healthy, requests:
requestCounts.get(key) || 0}`. -/
def discoveredStats (reg : Registry) (gw : GwState) (name : String) :
    List InstanceStat :=
  (fallbackDiscover reg name).map fun s =>
    ⟨"http://" ++ instKey s, s.healthy, rcGet gw.requestCounts (instKey s)⟩

/-- The `services` field of the stats body:
`Object.keys(discoveredServices).length > 0 ? discoveredServices :
serviceRegistry`. `fromStaticRegistry` is the `serviceRegistry` branch — a
`Map` that no code ever populates, serialised by `res.json` as `{}`. -/
inductive StatsServices where
  | fromDiscovery (user product order : List InstanceStat)
  | fromStaticRegistry
deriving Repr, DecidableEq

/-- The stats response body (minus the timestamp). -/
structure StatsResponse where
  services : StatsServices
  currentIndexUser : Nat
  currentIndexProduct : Nat
  currentIndexOrder : Nat
  totalRequests : Nat
deriving Repr, DecidableEq

/-- The `GET /api/gateway/stats` handler. The handler attaches a
`Promise.all([discoverServices('user'), ...]).then(...)` continuation that
would fill `discoveredServices`, but builds `stats` and calls `res.json`
synchronously right after: on the single-threaded event loop the `.then`
callback only runs after the handler returns, so when the response is
serialised `discoveredServices` is still `{}` and the `services` field falls
back to the never-populated static `serviceRegistry`. `discoveredKeysAtSend`
is `Object.keys(discoveredServices)` at `res.json` time. -/
def statsSnapshot (reg : Registry) (gw : GwState) : StatsResponse :=
  let discoveredKeysAtSend : List String := []
  { services :=
      if discoveredKeysAtSend.length > 0 then
        .fromDiscovery (discoveredStats reg gw "user")
          (discoveredStats reg gw "product") (discoveredStats reg gw "order")
      else .fromStaticRegistry
    currentIndexUser := gw.currentIndex "user"
    currentIndexProduct := gw.currentIndex "product"
    currentIndexOrder := gw.currentIndex "order"
    totalRequests := (gw.requestCounts.map Prod.snd).sum }

/-! ## Concrete scenario material shared by the claims -/

/-- Instance `A` of the concrete round-robin scenario (three instances of one
service, all healthy). -/
def instA : ServiceInstance := ⟨"A", "localhost", 3002, true, 0⟩

/-- Instance `B` of the concrete round-robin scenario. -/
def instB : ServiceInstance := ⟨"B", "localhost", 3003, true, 0⟩

/-- Instance `C` of the concrete round-robin scenario. -/
def instC : ServiceInstance := ⟨"C", "localhost", 3004, true, 0⟩

/-- The gateway state after a route call (the call always responds from
`attempts = 0` with fuel `3`, so the `none` branch is never taken). -/
def stepState (env : RouteEnv) (name : String) (st : GwState) : GwState :=
  match proxyRequest env name "rq" st with
  | some r => r.stateOf
  | none => st

/-- The URL of a successful selection (empty string on the throwing path). -/
def selectedUrl : Except String (SelectedService × GwState) → String
  | .ok (svc, _) => svc.url
  | .error _ => ""

/-- The gateway state after a selection: the updated state on success, the
unchanged input state when the selection threw. -/
def stateAfterSelect (st : GwState) : Except String (SelectedService × GwState) → GwState
  | .ok (_, st') => st'
  | .error _ => st

/-! ## C1 — round-robin selection and the A, B, C, A scenario -/

/-- Environment of the C1 scenario: discovery always returns `[A, B, C]`, all
healthy, and every forward succeeds with a 200. -/
def c1Env : RouteEnv :=
  ⟨fun _ => [instA, instB, instC], fun _ _ => .response 200 "ok", fun _ => .ok ()⟩

/-- Gateway state after `k` route calls of the C1 scenario. -/
def c1St : Nat → GwState
  | 0 => initialGw
  | k + 1 => stepState c1Env "user" (c1St k)

/-- The instance URL the `k`-th C1 route call forwarded to. -/
def c1Target (k : Nat) : String :=
  match proxyRequest c1Env "user" "rq" (c1St k) with
  | some r => r.targetOf
  | none => ""

/-- C1: for any service with a non-empty (healthy) instance list, selection
takes the instance at `cursor mod length` and advances the service's cursor
by one modulo the length; and in the concrete scenario with instances A, B, C
all healthy, four route calls target A, B, C, A and leave the request count
at 2 for A and 1 each for B and C. -/
theorem c1_round_robin :
    (∀ (st : GwState) (name : String) (services : List ServiceInstance)
       (h : services ≠ []),
       selectedUrl (selectFromDiscoveredServices st name services) = "http://" ++
         instKey (services.getD (st.currentIndex name % services.length) default) ∧
       (stateAfterSelect st (selectFromDiscoveredServices st name services)).currentIndex
           name = (st.currentIndex name + 1) % services.length) ∧
    c1Target 0 = "http://localhost:3002" ∧
    c1Target 1 = "http://localhost:3003" ∧
    c1Target 2 = "http://localhost:3004" ∧
    c1Target 3 = "http://localhost:3002" ∧
    rcGet (c1St 4).requestCounts "localhost:3002" = 2 ∧
    rcGet (c1St 4).requestCounts "localhost:3003" = 1 ∧
    rcGet (c1St 4).requestCounts "localhost:3004" = 1 := by
  refine ⟨?_, by decide, by decide, by decide, by decide, by decide, by decide, by decide⟩
  intro st name services h
  have hlen : st.currentIndex name % services.length < services.length :=
    Nat.mod_lt _ (List.length_pos.mpr h)
  constructor
  · simp only [selectFromDiscoveredServices, dif_neg h, selectedUrl,
      List.getD_eq_getElem?_getD, List.getElem?_eq_getElem hlen, Option.getD_some,
      List.get_eq_getElem]
  · simp only [selectFromDiscoveredServices, dif_neg h, stateAfterSelect]
    simp

/-- Witness for C1's universally quantified selection law at a concrete
input. -/
theorem c1_round_robin_witness :
    selectedUrl (selectFromDiscoveredServices initialGw "user" [instA, instB]) =
      "http://" ++
        instKey ([instA, instB].getD (initialGw.currentIndex "user" % 2) default) ∧
    (stateAfterSelect initialGw
        (selectFromDiscoveredServices initialGw "user" [instA, instB])).currentIndex
      "user" = (initialGw.currentIndex "user" + 1) % 2 :=
  c1_round_robin.1 initialGw "user" [instA, instB] (by decide)

/-! ## C2 — routing a service with no instances -/

/-- Environment of the C2 scenario: discovery always resolves to the empty
list; forwarding would succeed if it were ever reached. -/
def c2Env : RouteEnv :=
  ⟨fun _ => [], fun _ _ => .response 200 "ok", fun _ => .ok ()⟩

/-- C2 counterexample: with an empty instance set the route call does NOT
fail on the first attempt — it burns all three attempts (the fallback read of
`serviceRegistry[name]` throws and the catch block retries) before answering
500, so the claimed no-retry behaviour is false. -/
theorem c2_counterexample :
    (proxyRequest c2Env "user" "rq" initialGw).map RouteResult.attemptsOf = some 3 ∧
    (proxyRequest c2Env "user" "rq" initialGw).map RouteResult.attemptsOf ≠ some 1 ∧
    (proxyRequest c2Env "user" "rq" initialGw).map RouteResult.statusOf = some 500 := by
  refine ⟨by decide, by decide, by decide⟩

/-- C2 as amended: when discovery resolves to the empty set on every attempt,
the route call never crashes and fails with the 500 service-unavailable JSON
error, but only after exhausting all three attempts; each attempt's thrown
error (`TypeError` from the `serviceRegistry` fallback) is caught, and the
gateway state is left unchanged. -/
theorem c2_amended (env : RouteEnv) (name reqId : String) (st : GwState)
    (h : ∀ k, env.discover k = []) :
    proxyRequest env name reqId st =
      some (.failure 500 (unavailMsg name)
        "Cannot read properties of undefined (reading 'filter')" reqId 3 st) := by
  simp [proxyRequest, proxyGo, getNextService, h]

/-- Witness for C2's amended theorem at a concrete input. -/
theorem c2_amended_witness :
    proxyRequest c2Env "user" "rq" initialGw =
      some (.failure 500 (unavailMsg "user")
        "Cannot read properties of undefined (reading 'filter')" "rq" 3 initialGw) :=
  c2_amended c2Env "user" "rq" initialGw (fun _ => rfl)

/-! ## Step lemmas for the retry loop -/

/-- One loop iteration that selects, forwards successfully and responds. -/
theorem proxyGo_success_step {env : RouteEnv} {name reqId : String}
    {fuel attempts : Nat} {st st' : GwState} {svc : SelectedService}
    {discovered : List ServiceInstance} {s : Nat} {b : String}
    (hdisc : env.discover attempts = discovered)
    (hsel : getNextService st name discovered = .ok (svc, st'))
    (hfwd : axiosRequest (env.forward attempts svc) = .ok (s, b)) :
    proxyGo env name reqId (fuel + 1) attempts st =
      some (.success s b svc.url attempts st') := by
  simp [proxyGo, hdisc, hsel, hfwd]

/-- One loop iteration whose forward fails with attempts left: the catch
block increments the counter and the loop continues from the state the
selection already mutated. -/
theorem proxyGo_fail_step {env : RouteEnv} {name reqId : String}
    {fuel attempts : Nat} {st st' : GwState} {svc : SelectedService}
    {discovered : List ServiceInstance} {e : String}
    (hdisc : env.discover attempts = discovered)
    (hsel : getNextService st name discovered = .ok (svc, st'))
    (hfwd : axiosRequest (env.forward attempts svc) = .error e)
    (hne : ¬ attempts + 1 = 3) :
    proxyGo env name reqId (fuel + 1) attempts st =
      proxyGo env name reqId fuel (attempts + 1) st' := by
  simp [proxyGo, hdisc, hsel, hfwd, hne]

/-- The loop iteration that exhausts the attempt budget: the 500 JSON error
is sent with the attempt count and the last error's message. -/
theorem proxyGo_fail_last {env : RouteEnv} {name reqId : String}
    {fuel attempts : Nat} {st st' : GwState} {svc : SelectedService}
    {discovered : List ServiceInstance} {e : String}
    (hdisc : env.discover attempts = discovered)
    (hsel : getNextService st name discovered = .ok (svc, st'))
    (hfwd : axiosRequest (env.forward attempts svc) = .error e)
    (heq : attempts + 1 = 3) :
    proxyGo env name reqId (fuel + 1) attempts st =
      some (.failure 500 (unavailMsg name) e reqId (attempts + 1) st') := by
  simp [proxyGo, hdisc, hsel, hfwd, heq]

/-- The state a successful selection leaves behind. -/
def selSt (st : GwState) (name : String) (services : List ServiceInstance) : GwState :=
  stateAfterSelect st (selectFromDiscoveredServices st name services)

/-! ## C3 — application-level (non-2xx) responses -/

/-- Environment with one healthy instance whose every response has the given
status and body. -/
def oneInstEnv (s : Nat) (b : String) : RouteEnv :=
  ⟨fun _ => [instA], fun _ _ => .response s b, fun _ => .ok ()⟩

/-- Gateway state after one selection over `[instA]`. -/
def stA1 : GwState := selSt initialGw "user" [instA]

/-- Gateway state after two selections over `[instA]`. -/
def stA2 : GwState := selSt stA1 "user" [instA]

/-- Gateway state after three selections over `[instA]`. -/
def stA3 : GwState := selSt stA2 "user" [instA]

/-- First selection over the singleton instance list, evaluated. -/
theorem selA0 : getNextService initialGw "user" [instA] =
    .ok (⟨"http://localhost:3002", true, 1⟩, stA1) := rfl

/-- Second selection over the singleton instance list, evaluated. -/
theorem selA1 : getNextService stA1 "user" [instA] =
    .ok (⟨"http://localhost:3002", true, 2⟩, stA2) := rfl

/-- Third selection over the singleton instance list, evaluated. -/
theorem selA2 : getNextService stA2 "user" [instA] =
    .ok (⟨"http://localhost:3002", true, 3⟩, stA3) := rfl

/-- C3 counterexample: a reachable instance answering 404 is NOT passed
through — the route call retries three times and answers the 500 error JSON,
so the claimed no-retry pass-through of business errors is false. -/
theorem c3_counterexample :
    (proxyRequest (oneInstEnv 404 "not found") "user" "rq" initialGw).map
        (fun r => (r.statusOf, r.isSuccess, r.attemptsOf, r.messageOf)) =
      some (500, false, 3, "Request failed with status code 404") := by
  decide

/-- C3 as amended: only 2xx responses are passed through unmodified (status
and body verbatim, no retry); any non-2xx response is treated as a
forwarding failure by axios's default `validateStatus`, retried, and after
three such responses the caller receives the 500 error JSON whose `message`
is the axios status-code error. -/
theorem c3_amended (s : Nat) (b : String) :
    (200 ≤ s ∧ s < 300 →
      (proxyRequest (oneInstEnv s b) "user" "rq" initialGw).map
          (fun r => (r.statusOf, r.bodyOf, r.targetOf, r.attemptsOf)) =
        some (s, b, "http://localhost:3002", 0)) ∧
    (¬(200 ≤ s ∧ s < 300) →
      (proxyRequest (oneInstEnv s b) "user" "rq" initialGw).map
          (fun r => (r.statusOf, r.isSuccess, r.attemptsOf, r.messageOf)) =
        some (500, false, 3, "Request failed with status code " ++ toString s)) := by
  constructor
  · intro h
    have hax : axiosRequest (ForwardOutcome.response s b) = .ok (s, b) := by
      simp only [axiosRequest]; rw [if_pos h]
    rw [proxyRequest, proxyGo_success_step rfl selA0 hax]
    simp [RouteResult.statusOf, RouteResult.bodyOf, RouteResult.targetOf,
      RouteResult.attemptsOf]
  · intro h
    have hax : axiosRequest (ForwardOutcome.response s b) =
        .error ("Request failed with status code " ++ toString s) := by
      simp only [axiosRequest]; rw [if_neg h]
    rw [proxyRequest, proxyGo_fail_step rfl selA0 hax (by decide),
      proxyGo_fail_step rfl selA1 hax (by decide),
      proxyGo_fail_last rfl selA2 hax rfl]
    simp [RouteResult.statusOf, RouteResult.isSuccess, RouteResult.attemptsOf,
      RouteResult.messageOf]

/-- Witness for C3's amended theorem: a 201 passes through; a 404 is retried
into the terminal 500. -/
theorem c3_amended_witness :
    ((200 ≤ 201 ∧ 201 < 300) ∧
      (proxyRequest (oneInstEnv 201 "created") "user" "rq" initialGw).map
          (fun r => (r.statusOf, r.bodyOf, r.targetOf, r.attemptsOf)) =
        some (201, "created", "http://localhost:3002", 0)) ∧
    (¬(200 ≤ 503 ∧ 503 < 300) ∧
      (proxyRequest (oneInstEnv 503 "oops") "user" "rq" initialGw).map
          (fun r => (r.statusOf, r.isSuccess, r.attemptsOf, r.messageOf)) =
        some (500, false, 3, "Request failed with status code " ++ toString 503)) :=
  ⟨⟨by decide, (c3_amended 201 "created").1 (by decide)⟩,
   ⟨by decide, (c3_amended 503 "oops").2 (by decide)⟩⟩

/-! ## C4 — shape of the terminal failure response -/

/-- Environment with one healthy instance where the forward of attempt `k`
fails with connectivity error `e k`. -/
def failingEnv (e : Nat → String) : RouteEnv :=
  ⟨fun _ => [instA], fun k _ => .netError (e k), fun _ => .ok ()⟩

/-- C4: when all three attempts fail, the caller receives the HTTP 500 JSON
error whose `error` field reports the attempt count (`unavailMsg`), whose
`message` field is the last attempt's error, and whose `requestId` echoes the
request — a 5xx (service-unavailable-class) response. -/
theorem c4_retries_exhausted (e : Nat → String) (reqId : String) :
    (proxyRequest (failingEnv e) "user" reqId initialGw).map
        (fun r => (r.statusOf, r.errorOf, r.messageOf, r.requestIdOf, r.attemptsOf)) =
      some (500, unavailMsg "user", e 2, reqId, 3) ∧
    unavailMsg "user" = "Service user unavailable after 3 attempts" ∧
    (proxyRequest (failingEnv e) "user" reqId initialGw).map
        (fun r => r.statusOf / 100) = some 5 := by
  have hax : ∀ (k : Nat) (svc : SelectedService),
      axiosRequest ((failingEnv e).forward k svc) = .error (e k) := fun _ _ => rfl
  have hres : proxyRequest (failingEnv e) "user" reqId initialGw =
      some (.failure 500 (unavailMsg "user") (e 2) reqId (2 + 1) stA3) := by
    rw [proxyRequest, proxyGo_fail_step rfl selA0 (hax 0 _) (by decide),
      proxyGo_fail_step rfl selA1 (hax 1 _) (by decide),
      proxyGo_fail_last rfl selA2 (hax 2 _) rfl]
  refine ⟨?_, rfl, ?_⟩ <;>
    simp [hres, RouteResult.statusOf, RouteResult.errorOf, RouteResult.messageOf,
      RouteResult.requestIdOf, RouteResult.attemptsOf]

/-! ## C5 — when requestCount is incremented -/

/-- `rcGet` looks at the head pair first. -/
theorem rcGet_cons (x : String × Nat) (l : List (String × Nat)) (k : String) :
    rcGet (x :: l) k = if x.1 == k then x.2 else rcGet l k := by
  by_cases hx : (x.1 == k) = true
  · simp [rcGet, List.find?_cons_of_pos _ hx, hx]
  · simp [rcGet, List.find?_cons_of_neg _ hx, hx]

/-- The in-place-update branch of `rcSet`. -/
theorem rcSet_eq_map (m : List (String × Nat)) (k : String) (v : Nat)
    (h : (m.any fun q => q.1 == k) = true) :
    rcSet m k v = m.map (fun q => if q.1 == k then (k, v) else q) := by
  simp [rcSet, h]

/-- The append branch of `rcSet`. -/
theorem rcSet_eq_append (m : List (String × Nat)) (k : String) (v : Nat)
    (h : (m.any fun q => q.1 == k) = false) :
    rcSet m k v = m ++ [(k, v)] := by
  simp [rcSet, h]

/-- Replacing the entries for `k` makes the lookup of `k` read the new value,
provided some entry for `k` is present. -/
theorem rcGet_map_self (m : List (String × Nat)) (k : String) (v : Nat)
    (h : (m.any fun q => q.1 == k) = true) :
    rcGet (m.map fun q => if q.1 == k then (k, v) else q) k = v := by
  induction m with
  | nil => simp at h
  | cons p rest ih =>
    rw [List.map_cons, rcGet_cons]
    by_cases hp : (p.1 == k) = true
    · simp [hp]
    · have hr : (rest.any fun q => q.1 == k) = true := by
        simpa [List.any_cons, hp] using h
      simpa [hp] using ih hr

/-- Appending a fresh entry for `k` makes the lookup of `k` read it, provided
no entry for `k` was present. -/
theorem rcGet_append_self (m : List (String × Nat)) (k : String) (v : Nat)
    (h : (m.any fun q => q.1 == k) = false) :
    rcGet (m ++ [(k, v)]) k = v := by
  induction m with
  | nil => simp [rcGet]
  | cons p rest ih =>
    have hp : (p.1 == k) = false := by
      have := h; simp [List.any_cons] at this; simpa using this.1
    have hr : (rest.any fun q => q.1 == k) = false := by
      have := h; simp [List.any_cons] at this; simpa using this.2
    rw [List.cons_append, rcGet_cons]
    simpa [hp] using ih hr

/-- Replacing the entries for `k` does not change the lookup of another key. -/
theorem rcGet_map_ne (m : List (String × Nat)) (k k2 : String) (v : Nat)
    (h : k2 ≠ k) :
    rcGet (m.map fun q => if q.1 == k then (k, v) else q) k2 = rcGet m k2 := by
  induction m with
  | nil => rfl
  | cons p rest ih =>
    rw [List.map_cons, rcGet_cons, rcGet_cons]
    by_cases hp : (p.1 == k) = true
    · have hpe : p.1 = k := by simpa using hp
      have hk : (k == k2) = false := by
        simp only [beq_eq_false_iff_ne]
        exact fun he => h he.symm
      have hpk2 : (p.1 == k2) = false := by rw [hpe]; exact hk
      simp only [hp, hk, hpk2, if_true, if_false, Bool.false_eq_true]
      simpa using ih
    · simp only [hp, if_false]
      by_cases hpk2 : (p.1 == k2) = true
      · simp [hpk2]
      · simp only [hpk2, if_false, Bool.false_eq_true]
        simpa using ih

/-- Appending an entry for `k` does not change the lookup of another key. -/
theorem rcGet_append_ne (m : List (String × Nat)) (k k2 : String) (v : Nat)
    (h : k2 ≠ k) :
    rcGet (m ++ [(k, v)]) k2 = rcGet m k2 := by
  induction m with
  | nil =>
    have hk : (k == k2) = false := by
      simp only [beq_eq_false_iff_ne]
      exact fun he => h he.symm
    simp [rcGet, List.nil_append, rcGet_cons, hk]
  | cons p rest ih =>
    rw [List.cons_append, rcGet_cons, rcGet_cons, ih]

/-- Reading back the key just written: `Map.set` then `Map.get`. -/
theorem rcGet_rcSet_self (m : List (String × Nat)) (k : String) (v : Nat) :
    rcGet (rcSet m k v) k = v := by
  cases hm : (m.any fun q => q.1 == k) with
  | true => rw [rcSet_eq_map m k v hm]; exact rcGet_map_self m k v hm
  | false => rw [rcSet_eq_append m k v hm]; exact rcGet_append_self m k v hm

/-- A write to one key leaves every other key's value unchanged. -/
theorem rcGet_rcSet_ne (m : List (String × Nat)) (k : String) (v : Nat)
    (k2 : String) (h : k2 ≠ k) : rcGet (rcSet m k v) k2 = rcGet m k2 := by
  cases hm : (m.any fun q => q.1 == k) with
  | true => rw [rcSet_eq_map m k v hm]; exact rcGet_map_ne m k k2 v h
  | false => rw [rcSet_eq_append m k v hm]; exact rcGet_append_ne m k k2 v h

/-- C5 counterexample: with one instance and every forward failing, a route
call that never succeeds still leaves the instance's request count at 3 (one
increment per attempt, applied at selection time), so the claim that a failed
attempt leaves every count unchanged is false. -/
theorem c5_counterexample :
    (proxyRequest (failingEnv (fun _ => "connect ECONNREFUSED")) "user" "rq"
        initialGw).map
        (fun r => (r.isSuccess, rcGet r.stateOf.requestCounts "localhost:3002")) =
      some (false, 3) := by
  decide

/-- C5 as amended: the selected instance's request count is incremented by
one at selection time — on every attempt, before and regardless of the
forward's outcome — and a selection changes no other instance's count; no
other modelled operation writes the counter table (`service.requests++` in
the proxy mutates a transient copy, not the table). -/
theorem c5_amended (st : GwState) (name : String) (services : List ServiceInstance)
    (h : services ≠ []) :
    rcGet (stateAfterSelect st
          (selectFromDiscoveredServices st name services)).requestCounts
        (instKey (services.getD (st.currentIndex name % services.length) default)) =
      rcGet st.requestCounts
        (instKey (services.getD (st.currentIndex name % services.length) default)) + 1 ∧
    ∀ k2, k2 ≠ instKey (services.getD (st.currentIndex name % services.length) default) →
      rcGet (stateAfterSelect st
            (selectFromDiscoveredServices st name services)).requestCounts k2 =
        rcGet st.requestCounts k2 := by
  have hlen : st.currentIndex name % services.length < services.length :=
    Nat.mod_lt _ (List.length_pos.mpr h)
  have hkey : services.getD (st.currentIndex name % services.length) default =
      services.get ⟨st.currentIndex name % services.length, hlen⟩ := by
    simp [List.getD_eq_getElem?_getD, List.getElem?_eq_getElem hlen]
  simp only [selectFromDiscoveredServices, dif_neg h, stateAfterSelect, hkey]
  exact ⟨rcGet_rcSet_self _ _ _, fun k2 hk2 => rcGet_rcSet_ne _ _ _ k2 hk2⟩

/-- Witness for C5's amended theorem at a concrete input. -/
theorem c5_amended_witness :
    rcGet (stateAfterSelect initialGw
          (selectFromDiscoveredServices initialGw "user" [instA])).requestCounts
        (instKey ([instA].getD (initialGw.currentIndex "user" % 1) default)) =
      rcGet initialGw.requestCounts
        (instKey ([instA].getD (initialGw.currentIndex "user" % 1) default)) + 1 ∧
    rcGet (stateAfterSelect initialGw
          (selectFromDiscoveredServices initialGw "user" [instA])).requestCounts
        "localhost:9999" = rcGet initialGw.requestCounts "localhost:9999" :=
  ⟨(c5_amended initialGw "user" [instA] (by decide)).1,
   (c5_amended initialGw "user" [instA] (by decide)).2 "localhost:9999" (by decide)⟩

/-! ## C6 — the cursor bound across register/deregister/selection -/

/-- Registry after registering A, B, C (in that order) for service "user". -/
def c6Reg : Registry :=
  fallbackRegister
    (fallbackRegister (fallbackRegister [] "user" "A" 3002 0) "user" "B" 3003 0)
    "user" "C" 3004 0

/-- Gateway state after one selection over the three registered instances. -/
def c6St1 : GwState := selSt initialGw "user" (fallbackDiscover c6Reg "user")

/-- Gateway state after two selections over the three registered instances. -/
def c6St2 : GwState := selSt c6St1 "user" (fallbackDiscover c6Reg "user")

/-- C6 counterexample: register A, B, C; two selections drive the cursor to
2; deregistering B leaves two instances but the cursor still at 2, so the
claimed invariant `0 <= cursor < instanceCount` fails while the count is
positive (deregistration does not renormalise the cursor). -/
theorem c6_counterexample :
    0 < (fallbackDiscover (deregisterService c6Reg "B") "user").length ∧
    c6St2.currentIndex "user" = 2 ∧
    ¬ c6St2.currentIndex "user" <
        (fallbackDiscover (deregisterService c6Reg "B") "user").length := by
  refine ⟨by decide, by decide, by decide⟩

/-- C6 as amended: immediately after a selection over a non-empty instance
list the cursor equals `(old + 1) mod length`, hence lies in
`[0, length)`; a selection touches no other service's cursor (and register /
deregister never touch the cursor table at all — they act on the registry
only) — but between a deregistration and the next selection the stored
cursor may equal or exceed the shrunken instance count, selection staying
total only because it reduces the cursor modulo the current length. -/
theorem c6_amended (st : GwState) (name : String) (services : List ServiceInstance)
    (h : services ≠ []) :
    (stateAfterSelect st (selectFromDiscoveredServices st name services)).currentIndex
        name = (st.currentIndex name + 1) % services.length ∧
    (stateAfterSelect st (selectFromDiscoveredServices st name services)).currentIndex
        name < services.length ∧
    ∀ n, n ≠ name →
      (stateAfterSelect st (selectFromDiscoveredServices st name services)).currentIndex
          n = st.currentIndex n := by
  simp only [selectFromDiscoveredServices, dif_neg h, stateAfterSelect]
  refine ⟨by simp, ?_, ?_⟩
  · simp only [beq_self_eq_true, if_true]
    exact Nat.mod_lt _ (List.length_pos.mpr h)
  · intro n hn
    have hb : (n == name) = false := beq_eq_false_iff_ne.mpr hn
    simp [hb]

/-- Witness for C6's amended theorem at a concrete input. -/
theorem c6_amended_witness :
    (stateAfterSelect initialGw
          (selectFromDiscoveredServices initialGw "user" [instA, instB])).currentIndex
        "user" = (initialGw.currentIndex "user" + 1) % 2 ∧
    (stateAfterSelect initialGw
          (selectFromDiscoveredServices initialGw "user" [instA, instB])).currentIndex
        "user" < 2 ∧
    (stateAfterSelect initialGw
          (selectFromDiscoveredServices initialGw "user" [instA, instB])).currentIndex
        "product" = initialGw.currentIndex "product" :=
  ⟨(c6_amended initialGw "user" [instA, instB] (by decide)).1,
   (c6_amended initialGw "user" [instA, instB] (by decide)).2.1,
   (c6_amended initialGw "user" [instA, instB] (by decide)).2.2 "product" (by decide)⟩

/-! ## C7 — the stats snapshot -/

/-- Registry with one healthy user instance, for the stats scenario. -/
def c7Reg : Registry := fallbackRegister [] "user" "A" 3002 0

/-- Gateway state with a routed request recorded, for the stats scenario. -/
def c7Gw : GwState := ⟨fun _ => 0, [("localhost:3002", 5)]⟩

/-- C7 (code bug): although live discovery data exists — the registered
healthy instance with its request count, exactly what the `.then`
continuation would map it to — the snapshot that is actually sent carries
the static-registry branch for its `services` field (the response is
serialised before the `Promise.all` continuation runs, and the static
`serviceRegistry` is never populated), so the snapshot does not include the
per-service instance data the claim requires. -/
theorem c7_stats_stale :
    (statsSnapshot c7Reg c7Gw).services = StatsServices.fromStaticRegistry ∧
    discoveredStats c7Reg c7Gw "user" = [⟨"http://localhost:3002", true, 5⟩] ∧
    ∀ u p o, StatsServices.fromStaticRegistry ≠ StatsServices.fromDiscovery u p o := by
  refine ⟨rfl, by decide, ?_⟩
  intro u p o hc
  exact StatsServices.noConfusion hc

/-! ## C8 — job status transitions in local mode -/

/-- C8 counterexample: a job whose queue has a throwing handler followed by a
succeeding one ends `completed` (the claim requires `failed` once any handler
throws), and its status trace revisits `processing` after `failed` — the
transitions are neither monotonic nor terminal. -/
theorem c8_counterexample :
    (processFallbackJob ⟨"evt", .waiting, none⟩ [.throws "boom", .ok]).status =
      JobStatus.completed ∧
    statusTrace ⟨"evt", .waiting, none⟩ [.throws "boom", .ok] =
      [.waiting, .processing, .failed, .processing, .completed] := by
  refine ⟨rfl, rfl⟩

/-- C8 as amended: the per-processor loop overwrites the status each
iteration, so the terminal status of a processed job is decided by the LAST
registered handler alone — `completed` when it returns, `failed` when it
throws — and a job with no registered handlers keeps its current status. -/
theorem c8_amended (job : Job) (processors : List HandlerResult) :
    (processFallbackJob job processors).status =
      match processors.getLast? with
      | none => job.status
      | some .ok => JobStatus.completed
      | some (.throws _) => JobStatus.failed := by
  induction processors generalizing job with
  | nil => rfl
  | cons p rest ih =>
    cases rest with
    | nil => cases p <;> rfl
    | cons q rest2 =>
      have hstep : processFallbackJob job (p :: q :: rest2) =
          processFallbackJob (runProcessor job p) (q :: rest2) := rfl
      rw [hstep, ih (runProcessor job p), List.getLast?_cons_cons]
      cases hl : (q :: rest2).getLast? with
      | none => simp at hl
      | some r => cases r <;> rfl

/-! ## C9 — publish never fails the routed request -/

/-- The retry loop's result does not depend on the audit-publish outcomes:
two environments that agree except for `publishAdd` produce identical
results. -/
theorem proxyGo_publish_irrel (d : Nat → List ServiceInstance)
    (f : Nat → SelectedService → ForwardOutcome)
    (p₁ p₂ : Nat → Except String Unit) (name reqId : String) :
    ∀ (fuel attempts : Nat) (st : GwState),
      proxyGo ⟨d, f, p₁⟩ name reqId fuel attempts st =
        proxyGo ⟨d, f, p₂⟩ name reqId fuel attempts st := by
  intro fuel
  induction fuel with
  | zero => intro attempts st; rfl
  | succ n ih =>
    intro attempts st
    simp only [proxyGo]
    cases hsel : getNextService st name (d attempts) with
    | error e =>
      by_cases h3 : attempts + 1 = 3
      · simp [h3]
      · simp [h3, ih]
    | ok pr =>
      obtain ⟨svc, st'⟩ := pr
      dsimp only
      cases hfwd : axiosRequest (f attempts svc) with
      | ok sb => rfl
      | error e =>
        by_cases h3 : attempts + 1 = 3
        · simp [h3]
        · simp [h3, ih]

/-- C9: `publishEvent` never throws — a failing `add` is swallowed into a
value — and the routed request's outcome (response, attempts, state) is
independent of whether the audit publication fails, so a queue failure
neither fails the request nor consumes a retry attempt. -/
theorem c9_publish_never_fails_request :
    (∀ e : String, publishEvent (.error e) = .swallowed e) ∧
    (∀ (d : Nat → List ServiceInstance)
       (f : Nat → SelectedService → ForwardOutcome)
       (p₁ p₂ : Nat → Except String Unit) (name reqId : String) (st : GwState),
       proxyRequest ⟨d, f, p₁⟩ name reqId st = proxyRequest ⟨d, f, p₂⟩ name reqId st) :=
  ⟨fun _ => rfl,
   fun d f p₁ p₂ name reqId st => proxyGo_publish_irrel d f p₁ p₂ name reqId 3 0 st⟩

/-! ## C10 — registration creates a healthy, discoverable instance -/

/-- `registryLookup` looks at the head pair first. -/
theorem registryLookup_cons (x : String × List ServiceInstance)
    (rest : Registry) (name : String) :
    registryLookup (x :: rest) name =
      if x.1 == name then some x.2 else registryLookup rest name := by
  by_cases hx : (x.1 == name) = true
  · simp [registryLookup, List.find?_cons_of_pos _ hx, hx]
  · simp [registryLookup, List.find?_cons_of_neg _ hx, hx]

/-- The in-place-update branch of `registrySet`. -/
theorem registrySet_eq_map (reg : Registry) (name : String)
    (l : List ServiceInstance) (h : (reg.any fun p => p.1 == name) = true) :
    registrySet reg name l =
      reg.map (fun p => if p.1 == name then (name, l) else p) := by
  simp [registrySet, h]

/-- The append branch of `registrySet`. -/
theorem registrySet_eq_append (reg : Registry) (name : String)
    (l : List ServiceInstance) (h : (reg.any fun p => p.1 == name) = false) :
    registrySet reg name l = reg ++ [(name, l)] := by
  simp [registrySet, h]

/-- Replacing the entry for `name` makes its lookup read the new list,
provided some entry for `name` is present. -/
theorem registryLookup_map_self (reg : Registry) (name : String)
    (l : List ServiceInstance) (h : (reg.any fun p => p.1 == name) = true) :
    registryLookup (reg.map fun p => if p.1 == name then (name, l) else p)
      name = some l := by
  induction reg with
  | nil => simp at h
  | cons p rest ih =>
    rw [List.map_cons, registryLookup_cons]
    by_cases hp : (p.1 == name) = true
    · simp [hp]
    · have hr : (rest.any fun q => q.1 == name) = true := by
        simpa [List.any_cons, hp] using h
      simpa [hp] using ih hr

/-- Appending a fresh entry for `name` makes its lookup read it, provided no
entry for `name` was present. -/
theorem registryLookup_append_self (reg : Registry) (name : String)
    (l : List ServiceInstance) (h : (reg.any fun p => p.1 == name) = false) :
    registryLookup (reg ++ [(name, l)]) name = some l := by
  induction reg with
  | nil => simp [registryLookup]
  | cons p rest ih =>
    have hp : (p.1 == name) = false := by
      have := h; simp [List.any_cons] at this; simpa using this.1
    have hr : (rest.any fun q => q.1 == name) = false := by
      have := h; simp [List.any_cons] at this; simpa using this.2
    rw [List.cons_append, registryLookup_cons]
    simpa [hp] using ih hr

/-- Setting a key in the registry and reading it back. -/
theorem registryLookup_registrySet_self (reg : Registry) (name : String)
    (l : List ServiceInstance) :
    registryLookup (registrySet reg name l) name = some l := by
  cases hm : (reg.any fun p => p.1 == name) with
  | true =>
    rw [registrySet_eq_map reg name l hm]
    exact registryLookup_map_self reg name l hm
  | false =>
    rw [registrySet_eq_append reg name l hm]
    exact registryLookup_append_self reg name l hm

/-- `replaceById` keeps the replacement in the list whenever some entry
carried its id. -/
theorem mem_replaceById (l : List ServiceInstance) (inst : ServiceInstance)
    (h : (l.any fun i => i.id == inst.id) = true) :
    inst ∈ replaceById l inst := by
  induction l with
  | nil => simp at h
  | cons i rest ih =>
    by_cases hi : (i.id == inst.id) = true
    · simp [replaceById, hi]
    · have hr : (rest.any fun j => j.id == inst.id) = true := by
        simpa [List.any_cons, hi] using h
      simp only [replaceById, hi, if_false]
      exact List.mem_cons_of_mem _ (ih hr)

/-- C10: registering (or re-registering) an instance in the local registry
creates its record with `healthy = true` and `lastCheck` equal to the
registration time, and that record is immediately part of the
healthy-filtered `fallbackDiscover` result, before any health sweep runs. -/
theorem c10_register_healthy_discoverable (reg : Registry) (name id : String)
    (port now : Nat) :
    (⟨id, "localhost", port, true, now⟩ : ServiceInstance) ∈
      fallbackDiscover (fallbackRegister reg name id port now) name := by
  unfold fallbackRegister fallbackDiscover
  rw [registryLookup_registrySet_self]
  simp only [Option.getD_some]
  rw [List.mem_filter]
  constructor
  · by_cases h : (((registryLookup reg name).getD []).any fun i => i.id == id) = true
    · simp only [h, if_true]
      exact mem_replaceById _ _ (by simpa using h)
    · simp only [h, if_false]
      exact List.mem_append_right _ (List.mem_singleton.mpr rfl)
  · rfl

end LoadBalancer
